import Mathlib

/-!
Verification development for the webcam object-recognition frontend.

The embedding below is a shallow translation of the three cooperating pieces:

* `ObjectRecognition.js` — the Results Presenter (`getConfidenceColor`);
* the `WebcamCapture` component (`src/unnamed/part_001`) — the
  capture/recognize polling loop (`captureAndRecognize`, `startCapturing`,
  `stopCapturing`, `toggleCapture`, the webcam lifecycle handlers and the
  resume-on-create effect);
* `App.js` — the coordinator holding `recognizedObjects`, `isRecognizing`,
  `error` and `isCapturing`, updated through the callback handlers.

The component runs under React 18 semantics, which the embedding models
explicitly because the code depends on them:

* an event handler executes synchronously against the props and state of the
  current render (the snapshot); `setState` calls made inside it are queued
  and committed only after the handler returns;
* after a commit, the effects of the component run in declaration order; an
  effect whose dependencies did not change is skipped, and a `setState` from
  an effect triggers a further commit and effect phase;
* a `useRef` cell is mutated immediately when assigned and is initialised to
  the value of its argument at first render; `isCapturingRef` is assigned
  only inside the first `useEffect`, hence only after a commit — never
  during the handler that queued the change of `isCapturing`.

Machine integers do not occur; confidences are JS doubles used only in
comparisons against the literals 0.8 and 0.5 and scaling by 100, all exact
for the values the claims mention, so they are embedded as rationals.
-/

/-- One recognized object as returned by the service: `{ name, confidence }`. -/
structure Detection where
  name : String
  confidence : ℚ
deriving DecidableEq, Repr

/-- The three display tiers of `ObjectRecognition.js`. -/
inductive ConfidenceTier where
  | high
  | medium
  | low
deriving DecidableEq, Repr

/-- Translation of `getConfidenceColor` (ObjectRecognition.js lines 15-20):
`if (confidence >= 0.8) return high; if (confidence >= 0.5) return medium;
return low`. -/
def getConfidenceColor (confidence : ℚ) : ConfidenceTier :=
  if confidence ≥ 4 / 5 then ConfidenceTier.high
  else if confidence ≥ 1 / 2 then ConfidenceTier.medium
  else ConfidenceTier.low

/-- The value of the `objects` field of a response body when the field is
present.  The code inspects that value only through JS truthiness
(`response.data && response.data.objects`, part_001 line 100) and otherwise
passes it along untouched, so the embedding records an array of detections
exactly (an array is truthy even when empty) and abstracts every non-array
value to its truthiness plus an opaque description: `nonArray true "5"` for
a truthy value such as the number 5 or an object, `nonArray false "null"`
for a falsy one such as null, 0, NaN, the empty string or false. -/
inductive ObjectsValue where
  | arr (objs : List Detection)
  | nonArray (truthy : Bool) (tag : String)
deriving DecidableEq, Repr

/-- JS truthiness of a present `objects` value. -/
def ObjectsValue.isTruthy : ObjectsValue → Bool
  | ObjectsValue.arr _ => true
  | ObjectsValue.nonArray t _ => t

/-- The body of a response from the recognition service.  The code only
ever inspects the `objects` field; `objects := none` is a body without that
field (undefined) — for example one carrying a `detections` field instead.
A present `data` that is itself falsy behaves like an absent one at the
truthiness check, so `ServiceBehavior.responds none` covers both. -/
structure ResponseBody where
  objects : Option ObjectsValue
deriving DecidableEq, Repr

/-- Behaviour of the one `axios.post` call inside `captureAndRecognize`:
either the transport fails (axios throws, carrying a message), or a response
arrives whose `data` may itself be absent or of any shape. -/
inductive ServiceBehavior where
  | noResponse (msg : String)
  | responds (data : Option ResponseBody)
deriving DecidableEq, Repr

/-- The message of the `Error` thrown when the response lacks the `objects`
list (part_001 line 108). -/
def invalidResponseMsg : String := "Invalid response from recognition service"

/-- The single generic user-facing message built in `handleWebcamError`
(part_001 line 231). -/
def webcamErrorMsg : String :=
  "Failed to access webcam. Please make sure it is connected and you have granted permission."

/-- The callbacks the `WebcamCapture` component can invoke on its parent
coordinator, in the order they are invoked. -/
inductive CallbackEvent where
  | recognitionStart
  | objectsRecognized (value : ObjectsValue)
  | errorReported (msg : String)
  | startCapture
  | stopCapture
deriving DecidableEq, Repr

/-- Translation of `captureAndRecognize` (part_001 lines 43-128) as the list
of coordinator callbacks one invocation produces.

* `webcamAvailable` — whether `webcamRef.current` is non-null (line 44);
* `capturingRef` — the value read from `isCapturingRef.current` (line 50);
* `screenshot` — the result of `getScreenshot()` (line 74), `none` when the
  device returns no frame;
* `service` — the behaviour of the awaited `axios.post`.

The function touches no component state; a failure reaches the outer catch
(line 124-127) which calls `onError` once and returns normally. -/
def captureAndRecognize (webcamAvailable : Bool) (capturingRef : Bool)
    (screenshot : Option String) (service : ServiceBehavior) : List CallbackEvent :=
  if !webcamAvailable then []
  else if !capturingRef then []
  else
    match screenshot with
    | none => []
    | some _ =>
      CallbackEvent.recognitionStart ::
        match service with
        | ServiceBehavior.responds (some body) =>
          match body.objects with
          | some v =>
            if v.isTruthy then [CallbackEvent.objectsRecognized v]
            else [CallbackEvent.errorReported invalidResponseMsg]
          | none => [CallbackEvent.errorReported invalidResponseMsg]
        | ServiceBehavior.responds none => [CallbackEvent.errorReported invalidResponseMsg]
        | ServiceBehavior.noResponse msg => [CallbackEvent.errorReported msg]

/-- The coordinator state held by `App.js`.  `recognizedObjects` holds
whatever value `handleObjectsRecognized` stored last — the detection array
in the intended flow, but the raw `objects` value of the response in
general, since the component forwards it unexamined. -/
structure AppState where
  recognizedObjects : ObjectsValue
  isRecognizing : Bool
  error : Option String
  isCapturing : Bool
deriving DecidableEq, Repr

/-- Translation of the handlers of `App.js`: `handleRecognitionStart`
(lines 40-43), `handleObjectsRecognized` (lines 33-36), `handleError`
(lines 50-53), `handleStartCapture` (lines 58-61) and `handleStopCapture`
(lines 66-69). -/
def applyCallback (app : AppState) : CallbackEvent → AppState
  | CallbackEvent.recognitionStart => { app with isRecognizing := true, error := none }
  | CallbackEvent.objectsRecognized value =>
      { app with recognizedObjects := value, isRecognizing := false }
  | CallbackEvent.errorReported msg => { app with error := some msg, isRecognizing := false }
  | CallbackEvent.startCapture => { app with isCapturing := true }
  | CallbackEvent.stopCapture => { app with isCapturing := false }

/-- Apply a sequence of coordinator callbacks in order. -/
def applyCallbacks (app : AppState) (evs : List CallbackEvent) : AppState :=
  evs.foldl applyCallback app

/-- The full observable state of the mounted application.

* `app` — the coordinator state of `App.js`; `app.isCapturing` is also the
  `isCapturing` prop the component sees after each commit;
* `captureInterval` — the component state cell of the same name, holding the
  id of the interval it registered, or `none`;
* `isCameraReady`, `isCapturingRef` — the component state cell and ref of
  the same names;
* `webcamAvailable` — whether `webcamRef.current` is attached;
* `liveTimers` — the ids of the intervals currently registered with the
  runtime (`setInterval` adds one, `clearInterval` removes one);
* `nextTimerId` — the next id the runtime hands out. -/
structure SystemState where
  app : AppState
  captureInterval : Option Nat
  isCameraReady : Bool
  isCapturingRef : Bool
  webcamAvailable : Bool
  liveTimers : List Nat
  nextTimerId : Nat
deriving DecidableEq, Repr

/-- One effect phase after a commit, given `oldInterval`, the value of
`captureInterval` committed before this one.  The effects of part_001 in
declaration order:

* lines 35-38: `isCapturingRef.current = isCapturing` — an idempotent
  assignment of the committed prop, so running it unconditionally agrees
  with running it on change only;
* lines 245-257 (deps `[captureInterval]`): on a change the cleanup of the
  previous run fires first; it closes over the previous `captureInterval`
  and, when that was non-null, clears that interval and queues
  `setCaptureInterval(null)`;
* lines 259-263: effect with empty deps and empty body;
* lines 263-283 (deps include `captureInterval` and `captureAndRecognize`,
  whose identity changes on every parent render, so the guarded body re-runs
  each commit): when `isCapturing && !captureInterval && isCameraReady`, it
  registers a new interval, queues `setCaptureInterval(interval)` (which
  supersedes any update queued by the cleanup above) and invokes
  `captureAndRecognize()` once immediately.

Returns the state after the immediate actions, the queued `captureInterval`
update if any, and the callbacks emitted. -/
def effectRound (oldInterval : Option Nat) (screenshot : Option String)
    (service : ServiceBehavior) (s : SystemState) :
    SystemState × Option (Option Nat) × List CallbackEvent :=
  let sA := { s with isCapturingRef := s.app.isCapturing }
  let cleaned : SystemState × Option (Option Nat) :=
    if sA.captureInterval = oldInterval then (sA, none)
    else
      match oldInterval with
      | some i => ({ sA with liveTimers := sA.liveTimers.erase i }, some none)
      | none => (sA, none)
  let sB := cleaned.1
  if sB.app.isCapturing && sB.captureInterval.isNone && sB.isCameraReady then
    let id := sB.nextTimerId
    let capEvs := captureAndRecognize sB.webcamAvailable sB.isCapturingRef screenshot service
    let sD : SystemState :=
      { sB with liveTimers := sB.liveTimers ++ [id]
              , nextTimerId := id + 1
              , app := applyCallbacks sB.app capEvs }
    (sD, some (some id), capEvs)
  else (sB, cleaned.2, [])

/-- Run the effect phase, committing any `captureInterval` update an effect
queued and re-running the phase, as React does, until no further update is
queued or the queued value equals the committed one (React bails out of a
`setState` to the current value).  On every state reachable in this model
the cascade stabilises within two rounds; the fuel is generous. -/
def runEffects : Nat → Option Nat → Option String → ServiceBehavior → SystemState →
    SystemState × List CallbackEvent
  | 0, _, _, _, s => (s, [])
  | Nat.succ fuel, oldInterval, screenshot, service, s =>
    let r := effectRound oldInterval screenshot service s
    match r.2.1 with
    | none => (r.1, r.2.2)
    | some newInterval =>
      if newInterval = r.1.captureInterval then (r.1, r.2.2)
      else
        let r2 := runEffects fuel r.1.captureInterval screenshot service
                    { r.1 with captureInterval := newInterval }
        (r2.1, r.2.2 ++ r2.2)

/-- Translation of `startCapturing` (part_001 lines 133-151) as one complete
event: the handler plus the commit and effect phase it triggers.

The handler reads the `isCapturing` prop of the current render — equal to
`s.app.isCapturing`, since props commit at event boundaries.  If already
capturing it returns without queueing anything, so no commit occurs.
Otherwise it calls `onStartCapture()` (queueing `isCapturing := true` in the
coordinator), registers an interval, queues `setCaptureInterval(interval)`,
and invokes `captureAndRecognize()` synchronously — which reads
`isCapturingRef.current`, still un-synced because the ref-sync effect only
runs after the commit. -/
def startCapturing (s : SystemState) (screenshot : Option String)
    (service : ServiceBehavior) : SystemState × List CallbackEvent :=
  if s.app.isCapturing then (s, [])
  else
    let capEvs := captureAndRecognize s.webcamAvailable s.isCapturingRef screenshot service
    let handlerEvs := CallbackEvent.startCapture :: capEvs
    let id := s.nextTimerId
    let committed : SystemState :=
      { s with app := applyCallbacks s.app handlerEvs
             , liveTimers := s.liveTimers ++ [id]
             , nextTimerId := id + 1
             , captureInterval := some id }
    let r := runEffects 3 s.captureInterval screenshot service committed
    (r.1, handlerEvs ++ r.2)

/-- Translation of `stopCapturing` (part_001 lines 156-175) as one complete
event.  If not capturing (prop snapshot) it is a no-op.  Otherwise it calls
`onStopCapture()`, and when the `captureInterval` snapshot is non-null it
clears that interval and queues `setCaptureInterval(null)`.  The effect
phase after the commit can invoke no capture (the committed `isCapturing`
is false), so the screenshot and service arguments of `runEffects` are
inert placeholders. -/
def stopCapturing (s : SystemState) : SystemState × List CallbackEvent :=
  if !s.app.isCapturing then (s, [])
  else
    let handlerEvs := [CallbackEvent.stopCapture]
    let timers :=
      match s.captureInterval with
      | some i => s.liveTimers.erase i
      | none => s.liveTimers
    let committed : SystemState :=
      { s with app := applyCallbacks s.app handlerEvs
             , liveTimers := timers
             , captureInterval := none }
    let r := runEffects 3 s.captureInterval none (ServiceBehavior.responds none) committed
    (r.1, handlerEvs ++ r.2)

/-- Translation of `toggleCapture` (part_001 lines 180-200): ignored when
the camera is not ready, otherwise dispatches to stop or start on the
current prop snapshot. -/
def toggleCapture (s : SystemState) (screenshot : Option String)
    (service : ServiceBehavior) : SystemState × List CallbackEvent :=
  if !s.isCameraReady then (s, [])
  else if s.app.isCapturing then stopCapturing s
  else startCapturing s screenshot service

/-- Translation of `handleWebcamInit` (part_001 lines 237-241) as one
complete event: `setIsCameraReady(true)`.  When the cell already holds
`true` React bails out and no effect phase runs; otherwise the commit
triggers the effect phase, where the resume effect (lines 263-283) may
re-establish the interval and capture once. -/
def handleWebcamInit (s : SystemState) (screenshot : Option String)
    (service : ServiceBehavior) : SystemState × List CallbackEvent :=
  if s.isCameraReady then (s, [])
  else runEffects 3 s.captureInterval screenshot service { s with isCameraReady := true }

/-- Translation of `handleWebcamError` (part_001 lines 205-235) as one
complete event: the classification chain only logs; observably the handler
queues `setIsCameraReady(false)` and calls `onError` with the single
generic message. -/
def handleWebcamError (s : SystemState) : SystemState × List CallbackEvent :=
  let handlerEvs := [CallbackEvent.errorReported webcamErrorMsg]
  let committed : SystemState :=
    { s with isCameraReady := false, app := applyCallbacks s.app handlerEvs }
  let r := runEffects 3 s.captureInterval none (ServiceBehavior.responds none) committed
  (r.1, handlerEvs ++ r.2)

/-- One firing of a registered interval, as one complete event.  Both
registration sites pass a callback that amounts to `captureAndRecognize`
reading the current ref (the site of lines 266-275 checks
`isCapturingRef.current` before calling it; `captureAndRecognize` performs
the same check first thing).  A tick of an unregistered id does nothing. -/
def tickStep (s : SystemState) (t : Nat) (screenshot : Option String)
    (service : ServiceBehavior) : SystemState × List CallbackEvent :=
  if t ∈ s.liveTimers then
    let evs := captureAndRecognize s.webcamAvailable s.isCapturingRef screenshot service
    let committed : SystemState := { s with app := applyCallbacks s.app evs }
    let r := runEffects 3 s.captureInterval screenshot service committed
    (r.1, evs ++ r.2)
  else (s, [])

/-- Unmount followed by a fresh mount of the `WebcamCapture` component, as
one complete event.  On unmount the cleanup of the interval effect
(lines 248-256) clears the registered interval.  The coordinator state of
`App.js` survives; the component state is re-created: `captureInterval`
starts at `null`, `isCameraReady` at `false` (the device re-initialises and
will fire `handleWebcamInit` later), and `useRef(isCapturing)` initialises
the ref to the current prop.  The initial effect phase then runs; no
dependency has a previous value, so the interval-effect cleanup does not
fire, and the resume effect is guarded by `isCameraReady`, still false. -/
def remountStep (s : SystemState) : SystemState × List CallbackEvent :=
  let timers :=
    match s.captureInterval with
    | some i => s.liveTimers.erase i
    | none => s.liveTimers
  let committed : SystemState :=
    { s with liveTimers := timers
           , captureInterval := none
           , isCameraReady := false
           , isCapturingRef := s.app.isCapturing }
  runEffects 3 none none (ServiceBehavior.responds none) committed

/-- The events the application can process: direct start and stop calls, a
toggle click, a firing of a registered interval, webcam initialisation
success and failure, and a remount of the component. -/
inductive Event where
  | startEv (screenshot : Option String) (service : ServiceBehavior)
  | stopEv
  | toggleEv (screenshot : Option String) (service : ServiceBehavior)
  | tickEv (t : Nat) (screenshot : Option String) (service : ServiceBehavior)
  | cameraInitEv (screenshot : Option String) (service : ServiceBehavior)
  | cameraErrorEv
  | remountEv

/-- The state transition of one event. -/
def step (s : SystemState) : Event → SystemState
  | Event.startEv sc svc => (startCapturing s sc svc).1
  | Event.stopEv => (stopCapturing s).1
  | Event.toggleEv sc svc => (toggleCapture s sc svc).1
  | Event.tickEv t sc svc => (tickStep s t sc svc).1
  | Event.cameraInitEv sc svc => (handleWebcamInit s sc svc).1
  | Event.cameraErrorEv => (handleWebcamError s).1
  | Event.remountEv => (remountStep s).1

/-- The state right after the first mount: `App.js` initialises its four
state cells to `[]`, `false`, `null`, `false`; the component initialises
`captureInterval` to `null`, `isCameraReady` to `false` and the ref to the
initial prop; no interval is registered and the initial effect phase
changes nothing. -/
def initState : SystemState :=
  { app := { recognizedObjects := ObjectsValue.arr [], isRecognizing := false
           , error := none, isCapturing := false }
  , captureInterval := none
  , isCameraReady := false
  , isCapturingRef := false
  , webcamAvailable := true
  , liveTimers := []
  , nextTimerId := 0 }

/-- States reachable from the initial state by any sequence of events. -/
inductive Reachable : SystemState → Prop where
  | init : Reachable initState
  | step : ∀ s e, Reachable s → Reachable (step s e)

/-- The inductive invariant of the capture session:

1. the registered intervals are exactly the content of `captureInterval`;
2. when the coordinator flag is off, no interval is recorded;
3. the resume condition never holds at rest (whenever a commit establishes
   it, the resume effect fires in the same phase);
4. the ref is in sync with the committed flag (the ref-sync effect ran at
   the end of the last commit). -/
def SessionInv (s : SystemState) : Prop :=
  s.liveTimers = s.captureInterval.toList ∧
  (s.app.isCapturing = false → s.captureInterval = none) ∧
  ¬(s.app.isCapturing = true ∧ s.captureInterval = none ∧ s.isCameraReady = true) ∧
  s.isCapturingRef = s.app.isCapturing

/-! ### Helper lemmas and concrete states -/

/-- With the ref reading false, `captureAndRecognize` returns before any
acquisition, whatever the other inputs. -/
theorem captureAndRecognize_ref_false (w : Bool) (sc : Option String)
    (svc : ServiceBehavior) : captureAndRecognize w false sc svc = [] := by
  cases w <;> rfl

/-- A ready invocation of `captureAndRecognize` always begins by notifying
the coordinator that recognition started. -/
theorem captureAndRecognize_ready_head (img : String) (svc : ServiceBehavior) :
    ∃ rest, captureAndRecognize true true (some img) svc =
      CallbackEvent.recognitionStart :: rest := by
  exact ⟨_, rfl⟩

/-- The callbacks emitted by `captureAndRecognize` never include
`onStartCapture` or `onStopCapture`, so applying them leaves the
coordinator's `isCapturing` flag unchanged. -/
theorem applyCallbacks_capture_isCapturing (app : AppState) (w r : Bool)
    (sc : Option String) (svc : ServiceBehavior) :
    (applyCallbacks app (captureAndRecognize w r sc svc)).isCapturing =
      app.isCapturing := by
  cases w with
  | false => rfl
  | true =>
    cases r with
    | false => rfl
    | true =>
      cases sc with
      | none => rfl
      | some img =>
        rcases svc with msg | (_ | ⟨_ | (objs | ⟨t, tag⟩)⟩)
        · rfl
        · rfl
        · rfl
        · rfl
        · cases t <;> rfl

/-- A healthy service behaviour used in the concrete witnesses: one
detection of a cat at confidence 0.92. -/
def goodSvc : ServiceBehavior :=
  ServiceBehavior.responds
    (some { objects := some (ObjectsValue.arr [{ name := "cat", confidence := 92 / 100 }]) })

/-- Concrete reachable state: the webcam initialised after mount. -/
def readyState : SystemState :=
  step initState (Event.cameraInitEv none (ServiceBehavior.responds none))

/-- Concrete reachable state: the toggle pressed once in `readyState`. -/
def activeState : SystemState :=
  step readyState (Event.toggleEv (some "frame") goodSvc)

/-- Concrete reachable state: the component remounted while capturing. -/
def remountedState : SystemState :=
  step activeState Event.remountEv

/-- The state a successful start call leaves behind, starting from `s`: the
flag set, the freshly registered interval recorded, the ref re-synced. -/
def startedFrom (s : SystemState) : SystemState :=
  { s with app := { s.app with isCapturing := true }
         , captureInterval := some s.nextTimerId
         , liveTimers := [s.nextTimerId]
         , nextTimerId := s.nextTimerId + 1
         , isCapturingRef := true }

/-- The state a successful stop call leaves behind, starting from `s`: the
flag cleared, the interval cleared and unregistered, the ref re-synced. -/
def stoppedFrom (s : SystemState) : SystemState :=
  { s with app := { s.app with isCapturing := false }
         , captureInterval := none
         , liveTimers := []
         , isCapturingRef := false }

/-! ### Claim theorems -/

/-- C5: the Results Presenter assigns the high tier exactly when
confidence >= 0.8, the medium tier exactly when 0.5 <= confidence < 0.8 and
the low tier exactly when confidence < 0.5; in particular 0.8 classifies as
high, 0.79999 as medium, 0.5 as medium and 0.49999 as low. -/
theorem confidence_tier_boundaries :
    (∀ c : ℚ,
      (getConfidenceColor c = ConfidenceTier.high ↔ 4 / 5 ≤ c) ∧
      (getConfidenceColor c = ConfidenceTier.medium ↔ 1 / 2 ≤ c ∧ c < 4 / 5) ∧
      (getConfidenceColor c = ConfidenceTier.low ↔ c < 1 / 2)) ∧
    getConfidenceColor (8 / 10) = ConfidenceTier.high ∧
    getConfidenceColor (79999 / 100000) = ConfidenceTier.medium ∧
    getConfidenceColor (5 / 10) = ConfidenceTier.medium ∧
    getConfidenceColor (49999 / 100000) = ConfidenceTier.low := by
  refine ⟨fun c => ?_, by norm_num [getConfidenceColor], by norm_num [getConfidenceColor],
    by norm_num [getConfidenceColor], by norm_num [getConfidenceColor]⟩
  unfold getConfidenceColor
  split_ifs with h1 h2
  · exact ⟨iff_of_true rfl h1, iff_of_false (by decide) (by rintro ⟨-, hb⟩; linarith),
      iff_of_false (by decide) (by intro hb; linarith)⟩
  · push_neg at h1
    exact ⟨iff_of_false (by decide) (by intro hb; linarith),
      iff_of_true rfl ⟨h2, h1⟩, iff_of_false (by decide) (by intro hb; linarith)⟩
  · push_neg at h1 h2
    exact ⟨iff_of_false (by decide) (by intro hb; linarith),
      iff_of_false (by decide) (by rintro ⟨ha, -⟩; linarith), iff_of_true rfl h2⟩

/-- A concrete response whose `objects` field holds the number 5: present,
truthy, and not a detection list. -/
def nonListSvc : ServiceBehavior :=
  ServiceBehavior.responds (some { objects := some (ObjectsValue.nonArray true "number 5") })

/-- C6 (counterexample to the claim as stated): a response whose body does
not contain the expected `objects` detection list — here `objects` holds a
truthy non-list value, the number 5 — is forwarded to the success callback
by the code's truthiness check, and no malformed-response error is raised:
the success callback is invoked and the error callback is not, contrary to
the claim that any other shape fails with malformedResponse. -/
theorem nonlist_objects_forwarded_cex :
    captureAndRecognize true true (some "frame") nonListSvc =
      [CallbackEvent.recognitionStart,
       CallbackEvent.objectsRecognized (ObjectsValue.nonArray true "number 5")] ∧
    ¬ (CallbackEvent.errorReported invalidResponseMsg ∈
        captureAndRecognize true true (some "frame") nonListSvc) := by
  refine ⟨rfl, ?_⟩
  intro hmem
  rw [show captureAndRecognize true true (some "frame") nonListSvc =
    [CallbackEvent.recognitionStart,
     CallbackEvent.objectsRecognized (ObjectsValue.nonArray true "number 5")] from rfl] at hmem
  simp at hmem

/-- C6 (amended): the branch taken by the Recognition Client is decided by
JS truthiness of the `objects` field.  When the field is absent (for
example a body carrying a `detections` field instead), when the whole body
is missing, or when the field holds a falsy value, the client surfaces the
malformed-response error to the coordinator's error callback and the
success callback is not invoked.  When the field holds a truthy value the
client forwards that value verbatim to the success callback and raises no
error — the detection list verbatim in the intended flow, but equally any
truthy non-list value. -/
theorem recognition_response_handling :
    (∀ (img : String) (objs : List Detection),
      captureAndRecognize true true (some img)
          (ServiceBehavior.responds (some { objects := some (ObjectsValue.arr objs) })) =
        [CallbackEvent.recognitionStart,
         CallbackEvent.objectsRecognized (ObjectsValue.arr objs)]) ∧
    (∀ (img tag : String),
      captureAndRecognize true true (some img)
          (ServiceBehavior.responds
            (some { objects := some (ObjectsValue.nonArray true tag) })) =
        [CallbackEvent.recognitionStart,
         CallbackEvent.objectsRecognized (ObjectsValue.nonArray true tag)]) ∧
    (∀ (img tag : String),
      captureAndRecognize true true (some img)
          (ServiceBehavior.responds
            (some { objects := some (ObjectsValue.nonArray false tag) })) =
        [CallbackEvent.recognitionStart, CallbackEvent.errorReported invalidResponseMsg]) ∧
    (∀ img : String,
      captureAndRecognize true true (some img)
          (ServiceBehavior.responds (some { objects := none })) =
        [CallbackEvent.recognitionStart, CallbackEvent.errorReported invalidResponseMsg]) ∧
    (∀ img : String,
      captureAndRecognize true true (some img) (ServiceBehavior.responds none) =
        [CallbackEvent.recognitionStart, CallbackEvent.errorReported invalidResponseMsg]) :=
  ⟨fun _ _ => rfl, fun _ _ => rfl, fun _ _ => rfl, fun _ => rfl, fun _ => rfl⟩

/-- C9: when a recognition attempt fails, `handleError` changes only the
error message and the in-progress flag; the stored detection list is left
unchanged, so the last successfully recognized list is still what is handed
to the Results Presenter. -/
theorem handleError_preserves_detections :
    ∀ (app : AppState) (msg : String),
      applyCallback app (CallbackEvent.errorReported msg) =
        { app with error := some msg, isRecognizing := false } :=
  fun _ _ => rfl

/-- C10: when the webcam handle is unavailable, `captureAndRecognize`
returns immediately with no coordinator callback, whatever the active flag,
the screenshot and the service would have been. -/
theorem capture_without_webcam_no_callbacks :
    ∀ (capturingRef : Bool) (screenshot : Option String) (service : ServiceBehavior),
      captureAndRecognize false capturingRef screenshot service = [] :=
  fun _ _ _ => rfl

/-- C2 (counterexample to the claim as stated): in the concrete reachable
state with the camera ready and the session inactive, the first start call
performs zero immediate acquisitions, not one — even though the webcam
delivers a frame and the service is healthy, no `onRecognitionStart` is
among the emitted callbacks, because the immediate `captureAndRecognize`
reads the not yet re-synced `isCapturingRef`. -/
theorem start_single_immediate_acquisition_cex :
    ¬ ((startCapturing readyState (some "frame") goodSvc).2.count
        CallbackEvent.recognitionStart = 1) := by
  have h : (startCapturing readyState (some "frame") goodSvc).2 =
      [CallbackEvent.startCapture] := rfl
  rw [h]
  decide

/-- C2 (amended): calling start when the session is already active is a
no-op, so calling start twice in a row has the same observable effect as
calling it once: a single active timer is scheduled and the coordinator is
notified of the start exactly once; the immediate `captureAndRecognize`
call aborts on the not yet re-synced active flag, so no immediate
acquisition is performed in either case. -/
theorem start_idempotent (s : SystemState) (sc sc2 : Option String)
    (svc svc2 : ServiceBehavior)
    (hact : s.app.isCapturing = false) (href : s.isCapturingRef = false)
    (hci : s.captureInterval = none) (ht : s.liveTimers = []) :
    startCapturing s sc svc = (startedFrom s, [CallbackEvent.startCapture]) ∧
    startCapturing (startedFrom s) sc2 svc2 = (startedFrom s, []) := by
  constructor
  · simp [startCapturing, startedFrom, hact, href, hci, ht,
      captureAndRecognize_ref_false, runEffects, effectRound,
      applyCallbacks, applyCallback]
  · simp [startCapturing, startedFrom]

/-- Witness for the amended C2 theorem at a concrete reachable state. -/
theorem start_idempotent_witness :
    readyState.app.isCapturing = false ∧
    (startCapturing (startCapturing readyState (some "frame") goodSvc).1
        (some "frame2") goodSvc).2 = [] := by
  have h := start_idempotent readyState (some "frame") (some "frame2") goodSvc goodSvc
    rfl rfl rfl rfl
  exact ⟨rfl, by rw [congrArg Prod.fst h.1, h.2]⟩

/-- C3 (behaviour of the code at the failing input): a toggle press in the
concrete reachable state with the camera ready, the session inactive, a
frame available and the service healthy emits exactly `[startCapture]`.
The coordinator is told the capture started, but no recognition attempt is
issued within the same tick: the synchronous `captureAndRecognize` call of
`startCapturing` reads `isCapturingRef.current`, still false until the
post-commit effect syncs it, and returns before acquiring, so the first
acquisition can only happen at the first scheduled 3000 ms firing —
contrary to the spec and to the comment in the code that announces
triggering the first capture immediately. -/
theorem toggle_start_no_immediate_acquisition :
    (toggleCapture readyState (some "frame") goodSvc).2 =
      [CallbackEvent.startCapture] ∧
    (toggleCapture readyState (some "frame") goodSvc).2.count
      CallbackEvent.recognitionStart = 0 :=
  ⟨rfl, rfl⟩

/-- C7: calling stop when the session is active clears the single timer,
marks the session inactive and notifies the coordinator once; calling stop
again is a no-op with no callbacks and no error, so stop twice in a row has
the same observable effect as stop once. -/
theorem stop_idempotent (s : SystemState) (i : Nat)
    (hact : s.app.isCapturing = true) (hci : s.captureInterval = some i)
    (ht : s.liveTimers = [i]) :
    stopCapturing s = (stoppedFrom s, [CallbackEvent.stopCapture]) ∧
    stopCapturing (stoppedFrom s) = (stoppedFrom s, []) := by
  constructor
  · simp [stopCapturing, stoppedFrom, hact, hci, ht, runEffects, effectRound,
      applyCallbacks, applyCallback]
  · simp [stopCapturing, stoppedFrom]

/-- Witness for the C7 theorem at a concrete reachable state. -/
theorem stop_idempotent_witness :
    activeState.app.isCapturing = true ∧
    (stopCapturing (stopCapturing activeState).1).2 = [] := by
  have h := stop_idempotent activeState 0 rfl rfl rfl
  exact ⟨rfl, by rw [congrArg Prod.fst h.1, h.2]⟩

/-- C8: a recognition attempt that ends in an error — transport failure or
malformed response — reports the error to the coordinator exactly once and
leaves the scheduled recurring action in place: both the registered
interval and the `captureInterval` cell are unchanged, so the loop keeps
ticking every period. -/
theorem failed_recognition_keeps_timer (s : SystemState) (t : Nat) (img msg : String)
    (hweb : s.webcamAvailable = true) (href : s.isCapturingRef = true)
    (hci : s.captureInterval = some t) (ht : s.liveTimers = [t]) :
    ((tickStep s t (some img) (ServiceBehavior.noResponse msg)).1.liveTimers = [t] ∧
     (tickStep s t (some img) (ServiceBehavior.noResponse msg)).1.captureInterval = some t ∧
     (tickStep s t (some img) (ServiceBehavior.noResponse msg)).2 =
       [CallbackEvent.recognitionStart, CallbackEvent.errorReported msg]) ∧
    ((tickStep s t (some img) (ServiceBehavior.responds none)).1.liveTimers = [t] ∧
     (tickStep s t (some img) (ServiceBehavior.responds none)).1.captureInterval = some t ∧
     (tickStep s t (some img) (ServiceBehavior.responds none)).2 =
       [CallbackEvent.recognitionStart,
        CallbackEvent.errorReported invalidResponseMsg]) := by
  refine ⟨⟨?_, ?_, ?_⟩, ⟨?_, ?_, ?_⟩⟩ <;>
    simp [tickStep, hweb, href, hci, ht, captureAndRecognize, runEffects,
      effectRound, applyCallbacks, applyCallback]

/-- Witness for the C8 theorem at a concrete reachable state. -/
theorem failed_recognition_keeps_timer_witness :
    activeState.liveTimers = [0] ∧
    (tickStep activeState 0 (some "frame")
        (ServiceBehavior.noResponse "Network Error")).1.liveTimers = [0] ∧
    (tickStep activeState 0 (some "frame")
        (ServiceBehavior.noResponse "Network Error")).2 =
      [CallbackEvent.recognitionStart,
       CallbackEvent.errorReported "Network Error"] := by
  have h := failed_recognition_keeps_timer activeState 0 "frame" "Network Error"
    rfl rfl rfl rfl
  exact ⟨rfl, h.1.1, h.1.2.2⟩

/-- C4: a session state in which the externally supplied flag is active, no
interval is registered and the camera then reports ready re-establishes the
recurring action (a fresh interval is registered and recorded) and performs
one immediate acquisition-and-recognize — the emitted callbacks begin with
`onRecognitionStart` — all without any start call: only the webcam
initialisation callback runs. -/
theorem resume_on_camera_ready (s : SystemState) (img : String) (svc : ServiceBehavior)
    (hact : s.app.isCapturing = true) (hci : s.captureInterval = none)
    (hready : s.isCameraReady = false) (hweb : s.webcamAvailable = true)
    (ht : s.liveTimers = []) :
    (handleWebcamInit s (some img) svc).1.captureInterval = some s.nextTimerId ∧
    (handleWebcamInit s (some img) svc).1.liveTimers = [s.nextTimerId] ∧
    ∃ rest, (handleWebcamInit s (some img) svc).2 =
      CallbackEvent.recognitionStart :: rest := by
  refine ⟨?_, ?_, ?_⟩
  · simp [handleWebcamInit, hact, hci, hready, hweb, ht, runEffects, effectRound]
  · simp [handleWebcamInit, hact, hci, hready, hweb, ht, runEffects, effectRound]
  · simp only [handleWebcamInit, hact, hci, hready, hweb, ht, runEffects, effectRound]
    simp [hact, hweb]
    exact captureAndRecognize_ready_head img svc

/-- Witness for the C4 theorem: the concrete state reached by remounting
the component while it was actively capturing. -/
theorem resume_on_camera_ready_witness :
    remountedState.app.isCapturing = true ∧
    remountedState.captureInterval = none ∧
    (handleWebcamInit remountedState (some "frame") goodSvc).1.liveTimers =
      [remountedState.nextTimerId] := by
  have h := resume_on_camera_ready remountedState "frame" goodSvc rfl rfl rfl rfl rfl
  exact ⟨rfl, rfl, h.2.1⟩

/-! ### The session invariant and claim C1 -/

/-- The invariant holds right after the first mount. -/
theorem sessionInv_initState : SessionInv initState := by
  simp [SessionInv, initState]

/-- A start event preserves the invariant. -/
theorem sessionInv_startCapturing (s : SystemState) (sc : Option String)
    (svc : ServiceBehavior) (h : SessionInv s) :
    SessionInv (startCapturing s sc svc).1 := by
  obtain ⟨h1, h2, h3, h4⟩ := h
  by_cases hact : s.app.isCapturing = true
  · have heq : (startCapturing s sc svc).1 = s := by simp [startCapturing, hact]
    rw [heq]
    exact ⟨h1, h2, h3, h4⟩
  · have hact2 : s.app.isCapturing = false := by simpa using hact
    have hci : s.captureInterval = none := h2 hact2
    have ht : s.liveTimers = [] := by rw [h1, hci]; rfl
    have href : s.isCapturingRef = false := h4.trans hact2
    simp [SessionInv, startCapturing, hact2, href, hci, ht,
      captureAndRecognize_ref_false, runEffects, effectRound,
      applyCallbacks, applyCallback]

/-- A stop event preserves the invariant. -/
theorem sessionInv_stopCapturing (s : SystemState) (h : SessionInv s) :
    SessionInv (stopCapturing s).1 := by
  obtain ⟨h1, h2, h3, h4⟩ := h
  by_cases hact : s.app.isCapturing = true
  · rcases hci : s.captureInterval with _ | i
    · have ht : s.liveTimers = [] := by rw [h1, hci]; rfl
      simp [SessionInv, stopCapturing, hact, hci, ht, runEffects, effectRound,
        applyCallbacks, applyCallback]
    · have ht : s.liveTimers = [i] := by rw [h1, hci]; rfl
      simp [SessionInv, stopCapturing, hact, hci, ht, runEffects, effectRound,
        applyCallbacks, applyCallback]
  · have hact2 : s.app.isCapturing = false := by simpa using hact
    have heq : (stopCapturing s).1 = s := by simp [stopCapturing, hact2]
    rw [heq]
    exact ⟨h1, h2, h3, h4⟩

/-- A toggle event preserves the invariant. -/
theorem sessionInv_toggleCapture (s : SystemState) (sc : Option String)
    (svc : ServiceBehavior) (h : SessionInv s) :
    SessionInv (toggleCapture s sc svc).1 := by
  by_cases hready : s.isCameraReady = true
  · by_cases hact : s.app.isCapturing = true
    · simpa [toggleCapture, hready, hact] using sessionInv_stopCapturing s h
    · have hact2 : s.app.isCapturing = false := by simpa using hact
      simpa [toggleCapture, hready, hact2] using sessionInv_startCapturing s sc svc h
  · have hready2 : s.isCameraReady = false := by simpa using hready
    simpa [toggleCapture, hready2] using h

/-- A tick event preserves the invariant. -/
theorem sessionInv_tickStep (s : SystemState) (t : Nat) (sc : Option String)
    (svc : ServiceBehavior) (h : SessionInv s) :
    SessionInv (tickStep s t sc svc).1 := by
  obtain ⟨h1, h2, h3, h4⟩ := h
  by_cases hmem : t ∈ s.liveTimers
  · rcases hci : s.captureInterval with _ | i
    · rw [h1, hci] at hmem
      simp at hmem
    · have heq : (tickStep s t sc svc).1 =
          { s with
              app := applyCallbacks s.app
                (captureAndRecognize s.webcamAvailable s.isCapturingRef sc svc),
              isCapturingRef := (applyCallbacks s.app
                (captureAndRecognize s.webcamAvailable s.isCapturingRef sc svc)).isCapturing } := by
        simp [tickStep, hmem, hci, runEffects, effectRound]
      rw [heq]
      refine ⟨?_, ?_, ?_, ?_⟩
      · simpa using h1
      · intro hf
        rw [applyCallbacks_capture_isCapturing] at hf
        exact absurd (h2 hf) (by simp [hci])
      · rintro ⟨ha, hb, -⟩
        rw [applyCallbacks_capture_isCapturing] at ha
        simp [hci] at hb
      · rfl
  · have heq : (tickStep s t sc svc).1 = s := by simp [tickStep, hmem]
    rw [heq]
    exact ⟨h1, h2, h3, h4⟩

/-- A successful webcam initialisation preserves the invariant. -/
theorem sessionInv_handleWebcamInit (s : SystemState) (sc : Option String)
    (svc : ServiceBehavior) (h : SessionInv s) :
    SessionInv (handleWebcamInit s sc svc).1 := by
  obtain ⟨h1, h2, h3, h4⟩ := h
  by_cases hready : s.isCameraReady = true
  · have heq : (handleWebcamInit s sc svc).1 = s := by simp [handleWebcamInit, hready]
    rw [heq]
    exact ⟨h1, h2, h3, h4⟩
  · have hready2 : s.isCameraReady = false := by simpa using hready
    by_cases hact : s.app.isCapturing = true
    · rcases hci : s.captureInterval with _ | i
      · have ht : s.liveTimers = [] := by rw [h1, hci]; rfl
        have heq : (handleWebcamInit s sc svc).1 =
            { s with
                isCameraReady := true,
                captureInterval := some s.nextTimerId,
                liveTimers := [s.nextTimerId],
                nextTimerId := s.nextTimerId + 1,
                app := applyCallbacks s.app
                  (captureAndRecognize s.webcamAvailable true sc svc),
                isCapturingRef := (applyCallbacks s.app
                  (captureAndRecognize s.webcamAvailable true sc svc)).isCapturing } := by
          simp [handleWebcamInit, hready2, hact, hci, ht, runEffects, effectRound]
        rw [heq]
        refine ⟨?_, ?_, ?_, ?_⟩
        · simp
        · intro hf
          rw [applyCallbacks_capture_isCapturing, hact] at hf
          cases hf
        · rintro ⟨-, hb, -⟩
          simp at hb
        · rfl
      · have heq : (handleWebcamInit s sc svc).1 =
            { s with isCameraReady := true, isCapturingRef := s.app.isCapturing } := by
          simp [handleWebcamInit, hready2, hci, runEffects, effectRound]
        rw [heq]
        refine ⟨by simpa using h1, ?_, ?_, rfl⟩
        · intro hf
          exact absurd (h2 hf) (by simp [hci])
        · rintro ⟨-, hb, -⟩
          simp [hci] at hb
    · have hact2 : s.app.isCapturing = false := by simpa using hact
      have heq : (handleWebcamInit s sc svc).1 =
          { s with isCameraReady := true, isCapturingRef := s.app.isCapturing } := by
        simp [handleWebcamInit, hready2, hact2, runEffects, effectRound]
      rw [heq]
      refine ⟨by simpa using h1, fun hf => by simpa using h2 hf, ?_, rfl⟩
      rintro ⟨ha, -, -⟩
      simp [hact2] at ha

/-- A webcam error preserves the invariant. -/
theorem sessionInv_handleWebcamError (s : SystemState) (h : SessionInv s) :
    SessionInv (handleWebcamError s).1 := by
  obtain ⟨h1, h2, h3, h4⟩ := h
  have heq : (handleWebcamError s).1 =
      { s with
          isCameraReady := false,
          app := { s.app with error := some webcamErrorMsg, isRecognizing := false },
          isCapturingRef := s.app.isCapturing } := by
    simp [handleWebcamError, runEffects, effectRound, applyCallbacks, applyCallback]
  rw [heq]
  refine ⟨by simpa using h1, fun hf => by simpa using h2 hf, ?_, rfl⟩
  rintro ⟨-, -, hc⟩
  simp at hc

/-- A remount preserves the invariant. -/
theorem sessionInv_remountStep (s : SystemState) (h : SessionInv s) :
    SessionInv (remountStep s).1 := by
  obtain ⟨h1, h2, h3, h4⟩ := h
  have heq : (remountStep s).1 =
      { s with
          liveTimers := [],
          captureInterval := none,
          isCameraReady := false,
          isCapturingRef := s.app.isCapturing } := by
    rcases hci : s.captureInterval with _ | i
    · have ht : s.liveTimers = [] := by rw [h1, hci]; rfl
      simp [remountStep, hci, ht, runEffects, effectRound]
    · have ht : s.liveTimers = [i] := by rw [h1, hci]; rfl
      simp [remountStep, hci, ht, runEffects, effectRound]
  rw [heq]
  refine ⟨by simp, fun _ => rfl, ?_, rfl⟩
  rintro ⟨-, -, hc⟩
  simp at hc

/-- Every event preserves the invariant. -/
theorem sessionInv_step (s : SystemState) (e : Event) (h : SessionInv s) :
    SessionInv (step s e) := by
  cases e with
  | startEv sc svc => exact sessionInv_startCapturing s sc svc h
  | stopEv => exact sessionInv_stopCapturing s h
  | toggleEv sc svc => exact sessionInv_toggleCapture s sc svc h
  | tickEv t sc svc => exact sessionInv_tickStep s t sc svc h
  | cameraInitEv sc svc => exact sessionInv_handleWebcamInit s sc svc h
  | cameraErrorEv => exact sessionInv_handleWebcamError s h
  | remountEv => exact sessionInv_remountStep s h

/-- The invariant holds in every reachable state. -/
theorem sessionInv_reachable (s : SystemState) (h : Reachable s) : SessionInv s := by
  induction h with
  | init => exact sessionInv_initState
  | step s e _ ih => exact sessionInv_step s e ih

/-- C1: in every reachable state of the capture session, if the active flag
is true then at most one scheduled recurring capture action exists — no
sequence of start, stop, toggle, tick, camera lifecycle and remount events
ever leaves two intervals registered at once. -/
theorem active_at_most_one_timer (s : SystemState) (h : Reachable s)
    (_hact : s.app.isCapturing = true) : s.liveTimers.length ≤ 1 := by
  obtain ⟨h1, -, -, -⟩ := sessionInv_reachable s h
  rw [h1]
  cases s.captureInterval <;> simp

/-- Witness for the C1 theorem: the concrete reachable state in which the
session is actively capturing. -/
theorem active_at_most_one_timer_witness :
    Reachable activeState ∧ activeState.app.isCapturing = true ∧
      activeState.liveTimers.length ≤ 1 := by
  have hr : Reachable activeState :=
    Reachable.step readyState (Event.toggleEv (some "frame") goodSvc)
      (Reachable.step initState (Event.cameraInitEv none (ServiceBehavior.responds none))
        Reachable.init)
  exact ⟨hr, rfl, active_at_most_one_timer activeState hr rfl⟩
